import Mathlib

/-!
Verification of the aios-quantum repository against its specification.

The Python modules under `src/aios_quantum` are shallowly embedded:

* `providers.py` — `ProviderRegistry` with `select_provider` and
  `run_heartbeat_circuit` (failover execution).
* `heartbeat/scheduler.py` — `QuantumHeartbeat` with `single_beat`,
  `_get_next_backend_name`, `_get_runtime` and the `start` loop.
* `quantum_jobs/tracker.py` — `JobTracker` with its persisted job ledger.
* `quantum_jobs/manager.py` — `QuantumJobManager.submit_single` and
  `submit_parallel`.

Environment effects (wall-clock execution time, remote submissions, the
local state-vector sampler) are modelled as explicit inputs; filesystem
writes performed by the tracker are modelled as an emitted list of
`FsAction`s so that the persistence discipline is observable.  Python
`dict`s keyed by strings are modelled as insertion-ordered association
lists with the `dget` / `dict_set` / `dict_del` operations below.
Object identity of a registered provider (Python `is`) is modelled by its
registry key: `select_provider` returns the chosen key (`none` for the
freshly constructed fallback simulator, which is distinct from every
registered instance) together with the provider.
-/

/-- Measured quantities (seconds) are modelled as rationals. -/
abbrev Seconds := Rat

/-- A quantum circuit, abstracted to the attributes the embedded code
reads from it (`name`, `num_qubits`, `depth()`, `size()`). -/
structure Circuit where
  name : String
  num_qubits : Nat
  depth : Nat
  size : Nat
deriving DecidableEq

/-- `CircuitResult` from `providers.py`. -/
structure CircuitResult where
  counts : List (String × Nat)
  shots : Nat
  backend_name : String
  provider_name : String
  job_id : String
  execution_time : Seconds
  num_qubits : Nat
  depth : Nat
  gate_count : Nat
  is_real_hardware : Bool
deriving DecidableEq

/-- A provider adapter (`QuantumProvider` in `providers.py`): its name,
availability probe, and circuit-execution behaviour.  `run` takes the
circuit, the shot count and the optional backend name and either
produces a `CircuitResult` or fails with an exception message. -/
structure Provider where
  pname : String
  display_name : String
  available : Bool
  run : Circuit → Nat → Option String → Except String CircuitResult

/-- Environment of the local `StatevectorSampler`: the counts a sampling
run produces and the wall-clock time it takes. -/
structure SimBackend where
  sample_counts : Circuit → Nat → List (String × Nat)
  elapsed : Circuit → Nat → Seconds

/-- `SimulatorProvider` from `providers.py`: always available, `run`
always succeeds, reporting backend `statevector_sampler`. -/
def mkSimulatorProvider (sb : SimBackend) : Provider where
  pname := "simulator"
  display_name := "Local Simulator (StatevectorSampler)"
  available := true
  run := fun c shots _b =>
    let counts := sb.sample_counts c shots
    .ok { counts := counts
          shots := (counts.map (fun kv => kv.2)).sum
          backend_name := "statevector_sampler"
          provider_name := "simulator"
          job_id := "simulator"
          execution_time := sb.elapsed c shots
          num_qubits := c.num_qubits
          depth := c.depth
          gate_count := c.size
          is_real_hardware := false }

/-- Lookup in a string-keyed association list (Python `dict.get`). -/
def dget {α : Type} : List (String × α) → String → Option α
  | [], _ => none
  | (k, v) :: rest, n => if k = n then some v else dget rest n

/-- `ProviderRegistry` from `providers.py`: a priority order over
provider names and the registered providers (`self._providers`). -/
structure ProviderRegistry where
  priority : List String
  providers : List (String × Provider)

/-- Default priority order of `ProviderRegistry`. -/
def DEFAULT_PRIORITY : List String := ["ibm", "ionq", "qbraid", "braket", "simulator"]

/-- The walk of the priority chain inside `select_provider`: the first
registered, available provider in priority order, with its key. -/
def availableInChain : List String → List (String × Provider) → Option (String × Provider)
  | [], _ => none
  | n :: rest, provs =>
    match dget provs n with
    | some p => if p.available then some (n, p) else availableInChain rest provs
    | none => availableInChain rest provs

/-- `ProviderRegistry.get_provider`. -/
def ProviderRegistry.get_provider (r : ProviderRegistry) (n : String) : Option Provider :=
  dget r.providers n

/-- `ProviderRegistry.get_available_providers`: available providers in
priority order, with their keys. -/
def ProviderRegistry.get_available_providers (r : ProviderRegistry) :
    List (String × Provider) :=
  r.priority.filterMap fun n =>
    match dget r.providers n with
    | some p => if p.available then some (n, p) else none
    | none => none

/-- `ProviderRegistry.select_provider`: the preferred provider if it is
registered and available, otherwise the first available provider in
priority order, otherwise a freshly constructed `SimulatorProvider`.
The first component is the registry key of the choice (`none` for the
fresh fallback instance, which is not any registered object). -/
def ProviderRegistry.select_provider (sb : SimBackend) (r : ProviderRegistry)
    (preferred : Option String) : Option String × Provider :=
  let chain :=
    match availableInChain r.priority r.providers with
    | some (n, p) => (some n, p)
    | none => (none, mkSimulatorProvider sb)
  match preferred with
  | some pref =>
    match dget r.providers pref with
    | some p => if p.available then (some pref, p) else chain
    | none => chain
  | none => chain

/-- The attempt order built by `run_heartbeat_circuit`: the selected
provider first, then every other registered available provider in
priority order (`p is not provider` is key inequality). -/
def ProviderRegistry.heartbeat_chain (sb : SimBackend) (r : ProviderRegistry)
    (preferred_provider : Option String) : List (Option String × Provider) :=
  let sel := r.select_provider sb preferred_provider
  sel :: r.priority.filterMap fun n =>
    match dget r.providers n with
    | some p => if sel.1 ≠ some n ∧ p.available then some (some n, p) else none
    | none => none

/-- The backend name passed to an attempt: `preferred_backend` for the
selected provider (`p is provider`), `None` for all others. -/
def backendArg (selKey preferred_backend k : Option String) : Option String :=
  if k = selKey then preferred_backend else none

/-- The attempt loop of `run_heartbeat_circuit`: try each provider in
order, accumulating one `(provider_name, error)` pair per failure, and
stop at the first success.  A `none` result models the final
`RuntimeError` raised when every attempt failed. -/
def run_attempts (c : Circuit) (shots : Nat) (selKey preferred_backend : Option String) :
    List (Option String × Provider) → List (String × String) →
    List (String × String) × Option CircuitResult
  | [], tried => (tried, none)
  | (k, p) :: rest, tried =>
    match p.run c shots (backendArg selKey preferred_backend k) with
    | .ok res => (tried, some res)
    | .error e =>
      run_attempts c shots selKey preferred_backend rest (tried ++ [(p.pname, e)])

/-- `ProviderRegistry.run_heartbeat_circuit`: failover execution.
Returns the recorded failed attempts together with the first successful
result (`none` when the whole chain failed, in which case the failure
list is what the raised `RuntimeError` carries). -/
def ProviderRegistry.run_heartbeat_circuit (sb : SimBackend) (r : ProviderRegistry)
    (c : Circuit) (shots : Nat) (preferred_provider preferred_backend : Option String) :
    List (String × String) × Option CircuitResult :=
  run_attempts c shots (r.select_provider sb preferred_provider).1 preferred_backend
    (r.heartbeat_chain sb preferred_provider) []

/-- `HeartbeatConfig` from `heartbeat/scheduler.py`.  The Python default
`backend_rotation = None` and an empty list are both falsy there, so the
unset case is modelled as `[]`. -/
structure HeartbeatConfig where
  interval_seconds : Nat
  num_qubits : Nat
  shots : Nat
  optimization_level : Nat
  max_monthly_seconds : Seconds
  estimated_seconds_per_beat : Seconds
  results_dir : String
  use_simulator : Bool
  dry_run : Bool
  backend_rotation : List String
  rotation_index_file : String
deriving DecidableEq

/-- Mutable state of a `QuantumHeartbeat` instance together with the
persisted rotation-index file.  `runtime_initialized` models
`self._runtime is not None` (set only on the real-hardware path; the
simulator path of `_get_runtime` never sets `self._runtime`);
`backend` models the name of `self._backend`; `rotation_file` is the
integer currently stored in `rotation_index_file` on disk. -/
structure HeartbeatState where
  config : HeartbeatConfig
  beat_count : Nat
  budget_used : Seconds
  running : Bool
  runtime_initialized : Bool
  backend : Option String
  rotation_index : Nat
  rotation_file : Nat
deriving DecidableEq

/-- Per-tick environment: whether the execution attempt inside the
`try` block succeeds, the measured wall-clock time of the execution, the
remote job id, and the backend `get_least_busy_backend` would return. -/
structure TickEnv where
  exec_ok : Bool
  exec_time : Seconds
  remote_job_id : String
  least_busy : String
deriving DecidableEq

/-- The fields of `HeartbeatResult` that the embedded claims observe. -/
structure BeatSummary where
  beat_number : Nat
  backend_name : String
  job_id : String
  execution_time_seconds : Seconds
  budget_used_total : Seconds
  budget_remaining : Seconds
deriving DecidableEq

/-- `QuantumHeartbeat._get_next_backend_name`: `None` when no rotation
list is configured; otherwise `backends[self._rotation_index % len(backends)]`,
after which the index is incremented and the new value persisted to the
rotation-index file. -/
def get_next_backend_name (s : HeartbeatState) : HeartbeatState × Option String :=
  if s.config.backend_rotation = [] then (s, none)
  else
    let backends := s.config.backend_rotation
    let backend_name := backends.getD (s.rotation_index % backends.length) ""
    ({ s with rotation_index := s.rotation_index + 1,
              rotation_file := s.rotation_index + 1 }, some backend_name)

/-- `QuantumHeartbeat._get_runtime`: lazy initialization.  When
`self._runtime` is already set, nothing changes.  On the simulator path
the backend is set to `statevector_sampler` and `self._runtime` stays
`None`.  On the real path the rotation (if configured) supplies the
backend, otherwise the least-busy backend, and `self._runtime` is set. -/
def get_runtime (s : HeartbeatState) (env : TickEnv) : HeartbeatState :=
  if s.runtime_initialized then s
  else if s.config.use_simulator then { s with backend := some "statevector_sampler" }
  else
    let (s1, next_backend) := get_next_backend_name s
    match next_backend with
    | some b => { s1 with runtime_initialized := true, backend := some b }
    | none => { s1 with runtime_initialized := true, backend := some env.least_busy }

/-- `QuantumHeartbeat.single_beat`: refuse when
`self.budget_used >= self.config.max_monthly_seconds`; skip on
`dry_run`; otherwise initialize the runtime, execute, add the measured
execution time to `budget_used`, increment `beat_count` and return the
result.  Any exception inside the `try` block yields `None`. -/
def single_beat (s : HeartbeatState) (env : TickEnv) : HeartbeatState × Option BeatSummary :=
  if s.config.max_monthly_seconds ≤ s.budget_used then (s, none)
  else if s.config.dry_run then (s, none)
  else
    let s1 := get_runtime s env
    if env.exec_ok then
      let execution_time := env.exec_time
      let backend_name :=
        if s1.config.use_simulator then "statevector_sampler" else s1.backend.getD ""
      let job_id := if s1.config.use_simulator then "simulator" else env.remote_job_id
      let s2 := { s1 with budget_used := s1.budget_used + execution_time }
      ({ s2 with beat_count := s2.beat_count + 1 },
       some { beat_number := s2.beat_count
              backend_name := backend_name
              job_id := job_id
              execution_time_seconds := execution_time
              budget_used_total := s2.budget_used
              budget_remaining := s2.config.max_monthly_seconds - s2.budget_used })
    else (s1, none)

/-- One iteration of the `while` loop in `QuantumHeartbeat.start`:
execute a beat, then stop when `max_beats` is reached (Python
`if max_beats and self.beat_count >= max_beats`) or when
`self.budget_used >= self.config.max_monthly_seconds`.  The returned
flag is `true` when the loop sleeps and continues. -/
def start_step (s : HeartbeatState) (max_beats : Option Nat) (env : TickEnv) :
    HeartbeatState × Bool :=
  let s1 := (single_beat s env).1
  let hit_max :=
    match max_beats with
    | some m => if m = 0 then false else decide (m ≤ s1.beat_count)
    | none => false
  if hit_max then (s1, false)
  else if s1.config.max_monthly_seconds ≤ s1.budget_used then (s1, false)
  else (s1, true)

/-- The `start` loop over a finite trace of tick environments: iterate
`start_step`, stopping as soon as an iteration reports a stopping
condition. -/
def run_sched (s : HeartbeatState) (max_beats : Option Nat) : List TickEnv → HeartbeatState
  | [] => s
  | env :: rest =>
    let step := start_step s max_beats env
    if step.2 then run_sched step.1 max_beats rest else step.1

/-- `JobRecord` from `quantum_jobs/tracker.py`. -/
structure JobRecord where
  job_id : String
  backend_name : String
  submitted_at : String
  status : String
  circuit_name : String
  num_qubits : Nat
  shots : Nat
  experiment_type : String
  experiment_id : String
  completed_at : Option String
  execution_time : Option Seconds
  result_file : Option String
deriving DecidableEq

/-- Insert-or-replace in a string-keyed association list (Python
`d[k] = v`: replacement keeps the key's position, a new key appends). -/
def dict_set {α : Type} : List (String × α) → String → α → List (String × α)
  | [], k, v => [(k, v)]
  | (k0, v0) :: rest, k, v =>
    if k0 = k then (k, v) :: rest else (k0, v0) :: dict_set rest k v

/-- Deletion from a string-keyed association list (Python `del d[k]`). -/
def dict_del {α : Type} : List (String × α) → String → List (String × α)
  | [], _ => []
  | (k0, v0) :: rest, k => if k0 = k then rest else (k0, v0) :: dict_del rest k

/-- A filesystem action performed by the tracker's persistence layer.
`write path updated_at jobs` is a direct `Path.write_text` of the JSON
document (its `updated_at` stamp and its `jobs` map) to `path`;
`rename src dst` would be an atomic replacement step (the embedded code
never emits one). -/
inductive FsAction where
  | write (path : String) (updated_at : String) (jobs : List (String × JobRecord))
  | rename (src dst : String)
deriving DecidableEq

/-- Whether a filesystem action is a rename. -/
def FsAction.isRename : FsAction → Bool
  | .write _ _ _ => false
  | .rename _ _ => true

/-- In-memory state of a `JobTracker`: the ledger path and the job map. -/
structure Tracker where
  tracker_path : String
  jobs : List (String × JobRecord)
deriving DecidableEq

/-- `JobTracker._save`: a single direct `write_text` of the whole job
map to the ledger path (no temporary file, no rename). -/
def tracker_save (path now : String) (jobs : List (String × JobRecord)) : List FsAction :=
  [FsAction.write path now jobs]

/-- `JobTracker.add_job`: build the record with a fresh `QUEUED` status
and the submission timestamp, store it under its job id, persist, and
return the record. -/
def Tracker.add_job (t : Tracker) (job_id backend_name circuit_name : String)
    (num_qubits shots : Nat) (experiment_type experiment_id now : String) :
    Tracker × List FsAction × JobRecord :=
  let record : JobRecord :=
    { job_id := job_id
      backend_name := backend_name
      submitted_at := now
      status := "QUEUED"
      circuit_name := circuit_name
      num_qubits := num_qubits
      shots := shots
      experiment_type := experiment_type
      experiment_id := experiment_id
      completed_at := none
      execution_time := none
      result_file := none }
  let jobs' := dict_set t.jobs job_id record
  ({ t with jobs := jobs' }, tracker_save t.tracker_path now jobs', record)

/-- `JobTracker.update_status`: when the id is tracked, set the status
(also stamping `completed_at` when the new status is `DONE`) and
persist; otherwise do nothing. -/
def Tracker.update_status (t : Tracker) (job_id status now : String) :
    Tracker × List FsAction :=
  match dget t.jobs job_id with
  | none => (t, [])
  | some r =>
    let r' := { r with status := status,
                       completed_at := if status = "DONE" then some now else r.completed_at }
    let jobs' := dict_set t.jobs job_id r'
    ({ t with jobs := jobs' }, tracker_save t.tracker_path now jobs')

/-- `JobTracker.mark_completed`: when the id is tracked, set status
`DONE`, completion timestamp, execution time and result file, and
persist; otherwise do nothing. -/
def Tracker.mark_completed (t : Tracker) (job_id : String) (execution_time : Seconds)
    (result_file now : String) : Tracker × List FsAction :=
  match dget t.jobs job_id with
  | none => (t, [])
  | some r =>
    let r' := { r with status := "DONE"
                       completed_at := some now
                       execution_time := some execution_time
                       result_file := some result_file }
    let jobs' := dict_set t.jobs job_id r'
    ({ t with jobs := jobs' }, tracker_save t.tracker_path now jobs')

/-- `JobTracker.remove_job`: when the id is tracked, delete it and
persist; otherwise do nothing.  The `now` stamp is the save time. -/
def Tracker.remove_job (t : Tracker) (job_id now : String) : Tracker × List FsAction :=
  match dget t.jobs job_id with
  | none => (t, [])
  | some _ =>
    let jobs' := dict_del t.jobs job_id
    ({ t with jobs := jobs' }, tracker_save t.tracker_path now jobs')

/-- `JobTracker.get_pending`: all records whose status is not in
`("DONE", "CANCELLED", "ERROR")`. -/
def Tracker.get_pending (t : Tracker) : List JobRecord :=
  (t.jobs.map (fun kv => kv.2)).filter fun j =>
    decide (j.status ≠ "DONE" ∧ j.status ≠ "CANCELLED" ∧ j.status ≠ "ERROR")

/-- `JobTracker.get_by_status`. -/
def Tracker.get_by_status (t : Tracker) (status : String) : List JobRecord :=
  (t.jobs.map (fun kv => kv.2)).filter fun j => decide (j.status = status)

/-- `SubmissionResult` from `quantum_jobs/manager.py`. -/
structure SubmissionResult where
  job_id : String
  backend_name : String
  status : String
  submitted : Bool
  error : Option String
deriving DecidableEq

/-- Remote-submission environment of the job manager: for a backend
name, the whole `service.backend / transpile / sampler.run` pipeline
either yields a remote job id or raises with a message. -/
structure SubmitEnv where
  submit : String → Except String String

/-- `QuantumJobManager.FAST_BACKENDS` (the default for `submit_parallel`). -/
def FAST_BACKENDS : List String := ["ibm_torino", "ibm_fez"]

/-- `QuantumJobManager.AVAILABLE_BACKENDS`. -/
def AVAILABLE_BACKENDS : List String := ["ibm_torino", "ibm_fez", "ibm_marrakesh"]

/-- `QuantumJobManager.submit_single`: on success, register the job in
the tracker immediately and report `QUEUED`; any exception is caught
and reported as a `FAILED` result with empty job id and the error
text.  Returns the updated tracker, the filesystem actions of the
registration, and the `SubmissionResult`. -/
def submit_single (env : SubmitEnv) (t : Tracker) (c : Circuit) (backend_name : String)
    (shots : Nat) (experiment_type experiment_id now : String) :
    Tracker × List FsAction × SubmissionResult :=
  match env.submit backend_name with
  | .ok job_id =>
    let reg := t.add_job job_id backend_name c.name c.num_qubits shots
      experiment_type experiment_id now
    (reg.1, reg.2.1,
     { job_id := job_id, backend_name := backend_name, status := "QUEUED",
       submitted := true, error := none })
  | .error e =>
    (t, [],
     { job_id := "", backend_name := backend_name, status := "FAILED",
       submitted := false, error := some e })

/-- The loop body of `submit_parallel`: submit to each backend in turn,
threading the tracker and collecting one result per backend. -/
def submit_each (env : SubmitEnv) (c : Circuit) (shots : Nat)
    (experiment_type experiment_id now : String) :
    Tracker → List String → Tracker × List FsAction × List SubmissionResult
  | t, [] => (t, [], [])
  | t, b :: rest =>
    let one := submit_single env t c b shots experiment_type experiment_id now
    let more := submit_each env c shots experiment_type experiment_id now one.1 rest
    (more.1, one.2.1 ++ more.2.1, one.2.2 :: more.2.2)

/-- `QuantumJobManager.submit_parallel`: default the backend list to
`FAST_BACKENDS`, default an empty experiment id to a timestamp-derived
one, then submit to every backend independently. -/
def submit_parallel (env : SubmitEnv) (t : Tracker) (c : Circuit)
    (backends : Option (List String)) (shots : Nat)
    (experiment_type experiment_id now : String) :
    Tracker × List FsAction × List SubmissionResult :=
  let bs := backends.getD FAST_BACKENDS
  let eid := if experiment_id = "" then experiment_type ++ "_" ++ now else experiment_id
  submit_each env c shots experiment_type eid now t bs

/-! Helper lemmas about the failover attempt loop. -/

theorem run_attempts_all_fail (c : Circuit) (shots : Nat) (selKey pb : Option String)
    (errs : Option String × Provider → String) (l : List (Option String × Provider)) :
    ∀ tried : List (String × String),
    (∀ x ∈ l, x.2.run c shots (backendArg selKey pb x.1) = .error (errs x)) →
    run_attempts c shots selKey pb l tried =
      (tried ++ l.map (fun x => (x.2.pname, errs x)), none) := by
  induction l with
  | nil => intro tried _; simp [run_attempts]
  | cons hd tl ih =>
    intro tried h
    obtain ⟨k, p⟩ := hd
    have hkp : p.run c shots (backendArg selKey pb k) = Except.error (errs (k, p)) :=
      h (k, p) (by simp)
    simp only [run_attempts, hkp]
    rw [ih _ (fun x hx => h x (by simp [hx]))]
    simp

theorem run_attempts_first_success (c : Circuit) (shots : Nat) (selKey pb : Option String)
    (errs : Option String × Provider → String) (q : Option String × Provider)
    (post : List (Option String × Provider)) (v : CircuitResult)
    (hq : q.2.run c shots (backendArg selKey pb q.1) = .ok v)
    (pre : List (Option String × Provider)) :
    ∀ tried : List (String × String),
    (∀ x ∈ pre, x.2.run c shots (backendArg selKey pb x.1) = .error (errs x)) →
    run_attempts c shots selKey pb (pre ++ q :: post) tried =
      (tried ++ pre.map (fun x => (x.2.pname, errs x)), some v) := by
  induction pre with
  | nil =>
    intro tried _
    obtain ⟨kq, pq⟩ := q
    have hq' : pq.run c shots (backendArg selKey pb kq) = Except.ok v := hq
    simp only [List.nil_append, run_attempts, hq']
    simp
  | cons hd tl ih =>
    intro tried h
    obtain ⟨k, p⟩ := hd
    have hkp : p.run c shots (backendArg selKey pb k) = Except.error (errs (k, p)) :=
      h (k, p) (by simp)
    simp only [List.cons_append, run_attempts, hkp, List.append_eq]
    rw [ih _ (fun x hx => h x (by simp [hx]))]
    simp

/-- C1: `run_heartbeat_circuit` attempts the selected provider first
(the only attempt that receives `preferred_backend`), then the
remaining available providers in priority order; it returns the first
successful result, having recorded exactly one `(provider, error)` pair
per failed attempt before it, and it fails (raises) only when every
provider in the attempt chain failed. -/
theorem C1_run_heartbeat_failover (sb : SimBackend) (r : ProviderRegistry) (c : Circuit)
    (shots : Nat) (pp pb : Option String) (errs : Option String × Provider → String) :
    ((r.heartbeat_chain sb pp).head? = some (r.select_provider sb pp))
    ∧ (∀ x ∈ (r.heartbeat_chain sb pp).drop 1, x.1 ≠ (r.select_provider sb pp).1)
    ∧ (∀ pre q post v, r.heartbeat_chain sb pp = pre ++ q :: post →
        (∀ x ∈ pre,
          x.2.run c shots (backendArg (r.select_provider sb pp).1 pb x.1) = .error (errs x)) →
        q.2.run c shots (backendArg (r.select_provider sb pp).1 pb q.1) = .ok v →
        r.run_heartbeat_circuit sb c shots pp pb =
          (pre.map (fun x => (x.2.pname, errs x)), some v))
    ∧ ((∀ x ∈ r.heartbeat_chain sb pp,
          x.2.run c shots (backendArg (r.select_provider sb pp).1 pb x.1) = .error (errs x)) →
        r.run_heartbeat_circuit sb c shots pp pb =
          ((r.heartbeat_chain sb pp).map (fun x => (x.2.pname, errs x)), none)) := by
  refine ⟨?_, ?_, ?_, ?_⟩
  · simp [ProviderRegistry.heartbeat_chain]
  · intro x hx
    simp only [ProviderRegistry.heartbeat_chain, List.drop_succ_cons, List.drop_zero,
      List.mem_filterMap] at hx
    obtain ⟨n, -, hn⟩ := hx
    split at hn
    · split at hn
      · rename_i p hcond
        injection hn with hx2
        subst hx2
        exact fun heq => hcond.1 heq.symm
      · exact absurd hn (by simp)
    · exact absurd hn (by simp)
  · intro pre q post v hsplit hfail hq
    unfold ProviderRegistry.run_heartbeat_circuit
    rw [hsplit]
    exact run_attempts_first_success c shots _ pb errs q post v hq pre [] hfail
  · intro hfail
    unfold ProviderRegistry.run_heartbeat_circuit
    rw [run_attempts_all_fail c shots _ pb errs _ [] hfail]
    simp

/-! Concrete witness material: a registry whose chain is
`[Fails, Fails, Succeeds]`. -/

def simEnvW : SimBackend where
  sample_counts := fun _ _ => []
  elapsed := fun _ _ => 0

def circW : Circuit where
  name := "hb"
  num_qubits := 2
  depth := 3
  size := 4

def resW : CircuitResult where
  counts := [("00", 4), ("11", 3)]
  shots := 7
  backend_name := "b3"
  provider_name := "p3"
  job_id := "j3"
  execution_time := 1
  num_qubits := 2
  depth := 3
  gate_count := 4
  is_real_hardware := true

def provFails1 : Provider where
  pname := "p1"
  display_name := "P1"
  available := true
  run := fun _ _ _ => .error "e1"

def provFails2 : Provider where
  pname := "p2"
  display_name := "P2"
  available := true
  run := fun _ _ _ => .error "e2"

def provSucceeds : Provider where
  pname := "p3"
  display_name := "P3"
  available := true
  run := fun _ _ _ => .ok resW

def regW : ProviderRegistry where
  priority := ["p1", "p2", "p3"]
  providers := [("p1", provFails1), ("p2", provFails2), ("p3", provSucceeds)]

def errsW : Option String × Provider → String :=
  fun x => if x.1 = some "p1" then "e1" else "e2"

/-- Witness for C1: over the chain `[Fails, Fails, Succeeds]` the
failover run returns the third provider's result with exactly two
recorded failures. -/
theorem C1_run_heartbeat_failover_witness :
    regW.run_heartbeat_circuit simEnvW circW 7 none none =
      ([("p1", "e1"), ("p2", "e2")], some resW) := by
  have hchain : regW.heartbeat_chain simEnvW none =
      [(some "p1", provFails1), (some "p2", provFails2)] ++
        (some "p3", provSucceeds) :: [] := by rfl
  have hfail : ∀ x ∈ [((some "p1" : Option String), provFails1),
      ((some "p2" : Option String), provFails2)],
      x.2.run circW 7 (backendArg (regW.select_provider simEnvW none).1 none x.1) =
        .error (errsW x) := by
    intro x hx
    simp only [List.mem_cons, List.not_mem_nil, or_false] at hx
    rcases hx with rfl | rfl
    · rfl
    · rfl
  have h := (C1_run_heartbeat_failover simEnvW regW circW 7 none none errsW).2.2.1
    [(some "p1", provFails1), (some "p2", provFails2)] (some "p3", provSucceeds) [] resW
    hchain hfail rfl
  simpa using h

/-! Helper lemmas about the priority-chain walk of `select_provider`. -/

theorem availableInChain_available (l : List String) (provs : List (String × Provider)) :
    ∀ n p, availableInChain l provs = some (n, p) → p.available = true := by
  induction l with
  | nil => intro n p h; simp [availableInChain] at h
  | cons hd tl ih =>
    intro n p h
    simp only [availableInChain] at h
    split at h
    · rename_i q hq
      split at h
      · rename_i hqa
        injection h with h1
        injection h1 with h2 h3
        subst h3
        exact hqa
      · exact ih n p h
    · exact ih n p h

theorem availableInChain_isSome (provs : List (String × Provider)) (l : List String) :
    ∀ n p, n ∈ l → dget provs n = some p → p.available = true →
    (availableInChain l provs).isSome = true := by
  induction l with
  | nil => intro n p hmem _ _; simp at hmem
  | cons hd tl ih =>
    intro n p hmem hget hpa
    rcases List.mem_cons.mp hmem with rfl | hmem'
    · simp [availableInChain, hget, hpa]
    · simp only [availableInChain]
      split
      · split
        · simp
        · exact ih n p hmem' hget hpa
      · exact ih n p hmem' hget hpa

theorem availableInChain_first (provs : List (String × Provider)) (n : String)
    (p : Provider) (rest : List String)
    (hget : dget provs n = some p) (hpa : p.available = true) :
    ∀ pre : List String,
    (∀ m ∈ pre, ∀ q, dget provs m = some q → q.available = false) →
    availableInChain (pre ++ n :: rest) provs = some (n, p) := by
  intro pre
  induction pre with
  | nil => intro _; simp [availableInChain, hget, hpa]
  | cons hd tl ih =>
    intro h
    simp only [List.cons_append, availableInChain]
    cases hq : dget provs hd with
    | none => exact ih fun m hm => h m (by simp [hm])
    | some q =>
      have hqa : q.available = false := h hd (by simp) q hq
      show (if q.available = true then some (hd, q)
            else availableInChain (tl ++ n :: rest) provs) = some (n, p)
      rw [hqa]
      simp only [Bool.false_eq_true, if_false]
      exact ih fun m hm => h m (by simp [hm])

/-- C2: `select_provider` returns the preferred provider when it is
registered and available; otherwise — no preferred name given, the name
unregistered, or the named provider unavailable — it returns the first
available provider in priority order; and whenever an available
provider is registered under `simulator` and `simulator` is in the
priority order (the always-available fallback), the selection is an
available provider — the call never fails to produce an adapter. -/
theorem C2_select_provider (sb : SimBackend) (r : ProviderRegistry) :
    (∀ pref p, dget r.providers pref = some p → p.available = true →
      r.select_provider sb (some pref) = (some pref, p))
    ∧ (∀ pp pre n rest p,
        (∀ pref q, pp = some pref → dget r.providers pref = some q →
          q.available = false) →
        r.priority = pre ++ n :: rest →
        (∀ m ∈ pre, ∀ q, dget r.providers m = some q → q.available = false) →
        dget r.providers n = some p → p.available = true →
        r.select_provider sb pp = (some n, p))
    ∧ (∀ pp sp, dget r.providers "simulator" = some sp → sp.available = true →
        "simulator" ∈ r.priority → (r.select_provider sb pp).2.available = true) := by
  refine ⟨?_, ?_, ?_⟩
  · intro pref p hget hpa
    simp [ProviderRegistry.select_provider, hget, hpa]
  · intro pp pre n rest p hpref hsplit hpre hget hpa
    have hchain := availableInChain_first r.providers n p rest hget hpa pre hpre
    cases pp with
    | none => simp only [ProviderRegistry.select_provider, hsplit, hchain]
    | some pref =>
      cases hdp : dget r.providers pref with
      | none => simp only [ProviderRegistry.select_provider, hdp, hsplit, hchain]
      | some q =>
        have hqa : q.available = false := hpref pref q rfl hdp
        simp [ProviderRegistry.select_provider, hdp, hsplit, hchain, hqa]
  · intro pp sp hget hpa hmem
    have hsome := availableInChain_isSome r.providers r.priority "simulator" sp hmem hget hpa
    obtain ⟨⟨k, q⟩, hkq⟩ := Option.isSome_iff_exists.mp hsome
    have hqa : q.available = true := availableInChain_available r.priority r.providers k q hkq
    cases pp with
    | none => simp only [ProviderRegistry.select_provider, hkq]; exact hqa
    | some pref =>
      cases hdp : dget r.providers pref with
      | none => simp only [ProviderRegistry.select_provider, hdp, hkq]; exact hqa
      | some p =>
        by_cases hpav : p.available = true
        · simp [ProviderRegistry.select_provider, hdp, hpav]
        · simp only [ProviderRegistry.select_provider, hdp, hkq,
            Bool.not_eq_true] at hpav ⊢
          rw [hpav]
          simp only [Bool.false_eq_true, if_false]
          exact hqa

/-! Concrete witness material for provider selection: an unavailable
real provider ahead of the always-available simulator. -/

def provIbmDown : Provider where
  pname := "ibm"
  display_name := "IBM Quantum"
  available := false
  run := fun _ _ _ => .error "credentials missing"

def provSimW : Provider where
  pname := "simulator"
  display_name := "Local Simulator"
  available := true
  run := fun _ _ _ => .ok resW

def regW2 : ProviderRegistry where
  priority := ["ibm", "simulator"]
  providers := [("ibm", provIbmDown), ("simulator", provSimW)]

/-- Witness for C2: with the unavailable `ibm` ahead of the available
`simulator`, the preferred name wins when available; with no preferred
name, with the registered-but-unavailable `ibm` preferred, and with the
unregistered `nope` preferred, the chain walk falls through to the
first available provider `simulator`; and an unknown preferred name
still yields an available adapter. -/
theorem C2_select_provider_witness :
    regW2.select_provider simEnvW (some "simulator") = (some "simulator", provSimW)
    ∧ regW2.select_provider simEnvW none = (some "simulator", provSimW)
    ∧ regW2.select_provider simEnvW (some "ibm") = (some "simulator", provSimW)
    ∧ regW2.select_provider simEnvW (some "nope") = (some "simulator", provSimW)
    ∧ (regW2.select_provider simEnvW (some "nope")).2.available = true := by
  have hibm : ∀ q : Provider, dget regW2.providers "ibm" = some q →
      q.available = false := by
    intro q hq
    have hq' : (some provIbmDown : Option Provider) = some q :=
      Eq.trans (by rfl) hq
    injection hq' with h1
    subst h1
    rfl
  have hpre : ∀ m ∈ ["ibm"], ∀ q : Provider,
      dget regW2.providers m = some q → q.available = false := by
    intro m hm q hq
    simp only [List.mem_singleton] at hm
    subst hm
    exact hibm q hq
  refine ⟨(C2_select_provider simEnvW regW2).1 "simulator" provSimW rfl rfl,
          (C2_select_provider simEnvW regW2).2.1 none ["ibm"] "simulator" [] provSimW
            (fun pref q h _ => Option.noConfusion h) rfl hpre rfl rfl,
          (C2_select_provider simEnvW regW2).2.1 (some "ibm") ["ibm"] "simulator" []
            provSimW ?_ rfl hpre rfl rfl,
          (C2_select_provider simEnvW regW2).2.1 (some "nope") ["ibm"] "simulator" []
            provSimW ?_ rfl hpre rfl rfl,
          (C2_select_provider simEnvW regW2).2.2 (some "nope") provSimW rfl rfl
            (by simp [regW2])⟩
  · intro pref q h hq
    injection h with h1
    subst h1
    exact hibm q hq
  · intro pref q h hq
    injection h with h1
    subst h1
    have hq' : (none : Option Provider) = some q := Eq.trans (by rfl) hq
    exact Option.noConfusion hq'

/-! Scheduler helper lemmas. -/

theorem get_runtime_preserves (s : HeartbeatState) (env : TickEnv) :
    (get_runtime s env).budget_used = s.budget_used
    ∧ (get_runtime s env).beat_count = s.beat_count
    ∧ (get_runtime s env).config = s.config := by
  by_cases h1 : s.runtime_initialized = true
  · simp [get_runtime, h1]
  · by_cases h2 : s.config.use_simulator = true
    · simp [get_runtime, h1, h2]
    · by_cases h3 : s.config.backend_rotation = []
      · simp [get_runtime, get_next_backend_name, h1, h2, h3]
      · simp [get_runtime, get_next_backend_name, h1, h2, h3]

theorem single_beat_refused (s : HeartbeatState) (env : TickEnv)
    (h : s.config.max_monthly_seconds ≤ s.budget_used) :
    single_beat s env = (s, none) := by
  simp [single_beat, h]

theorem single_beat_adds (s : HeartbeatState) (env : TickEnv)
    (hlt : s.budget_used < s.config.max_monthly_seconds)
    (hdry : s.config.dry_run = false) (hok : env.exec_ok = true) :
    (single_beat s env).1.budget_used = s.budget_used + env.exec_time
    ∧ (single_beat s env).2.isSome = true := by
  have hnle : ¬ s.config.max_monthly_seconds ≤ s.budget_used := not_le.mpr hlt
  have hb := (get_runtime_preserves s env).1
  constructor
  · simp [single_beat, hnle, hdry, hok, hb]
  · simp [single_beat, hnle, hdry, hok]

/-- C3: `single_beat` refuses admission exactly when
`budget_used >= max_monthly_seconds` (returning without executing and
without touching any state), and an admitted, executed beat increases
`budget_used` by exactly the measured execution seconds. -/
theorem C3_budget_admission (s : HeartbeatState) (env : TickEnv) :
    (s.config.max_monthly_seconds ≤ s.budget_used → single_beat s env = (s, none))
    ∧ (s.budget_used < s.config.max_monthly_seconds → s.config.dry_run = false →
        env.exec_ok = true →
        (single_beat s env).1.budget_used = s.budget_used + env.exec_time
        ∧ (single_beat s env).2.isSome = true) :=
  ⟨fun h => single_beat_refused s env h,
   fun hlt hdry hok => single_beat_adds s env hlt hdry hok⟩

/-! Concrete scheduler states for witnesses and counterexamples. -/

def cfgSim : HeartbeatConfig where
  interval_seconds := 3600
  num_qubits := 5
  shots := 1024
  optimization_level := 1
  max_monthly_seconds := 600
  estimated_seconds_per_beat := 4/5
  results_dir := "heartbeat_results"
  use_simulator := true
  dry_run := false
  backend_rotation := []
  rotation_index_file := "heartbeat_results/.rotation_index"

def stateFresh : HeartbeatState where
  config := cfgSim
  beat_count := 0
  budget_used := 0
  running := false
  runtime_initialized := false
  backend := none
  rotation_index := 0
  rotation_file := 0

def stateSpent : HeartbeatState := { stateFresh with budget_used := 600 }

def envOk : TickEnv where
  exec_ok := true
  exec_time := 2
  remote_job_id := "jr1"
  least_busy := "ibm_fez"

def envErr : TickEnv where
  exec_ok := false
  exec_time := 2
  remote_job_id := "jr1"
  least_busy := "ibm_fez"

/-- Witness for C3: a spent budget refuses the beat; a fresh budget
admits one and the measured two seconds are recorded. -/
theorem C3_budget_admission_witness :
    single_beat stateSpent envOk = (stateSpent, none)
    ∧ (single_beat stateFresh envOk).1.budget_used =
        stateFresh.budget_used + envOk.exec_time := by
  constructor
  · exact (C3_budget_admission stateSpent envOk).1 (by norm_num [stateSpent, stateFresh, cfgSim])
  · exact ((C3_budget_admission stateFresh envOk).2 (by norm_num [stateFresh, cfgSim]) rfl rfl).1

/-- C4 counterexample: a tick executed with the local simulator does
change the consumed budget — `budget_used += execution_time` runs on
the simulator path too. -/
theorem C4_sim_budget_counterexample :
    stateFresh.config.use_simulator = true
    ∧ (single_beat stateFresh envOk).1.budget_used ≠ stateFresh.budget_used := by
  constructor
  · rfl
  · have h := (single_beat_adds stateFresh envOk (by norm_num [stateFresh, cfgSim]) rfl rfl).1
    rw [h]
    norm_num [stateFresh, cfgSim, envOk]

/-- C4 amended: the budget total advances by the measured execution
seconds after every successful execution, real and simulated alike, and
stays unchanged when the execution attempt fails. -/
theorem C4_budget_recording_amended (s : HeartbeatState) (env : TickEnv) :
    (s.budget_used < s.config.max_monthly_seconds → s.config.dry_run = false →
      env.exec_ok = true →
      (single_beat s env).1.budget_used = s.budget_used + env.exec_time)
    ∧ (env.exec_ok = false →
      (single_beat s env).1.budget_used = s.budget_used) := by
  constructor
  · intro hlt hdry hok
    exact (single_beat_adds s env hlt hdry hok).1
  · intro hko
    have hb := (get_runtime_preserves s env).1
    by_cases hA : s.config.max_monthly_seconds ≤ s.budget_used
    · simp [single_beat, hA]
    · by_cases hB : s.config.dry_run = true
      · simp [single_beat, hA, hB]
      · simp [single_beat, hA, hB, hko, hb]

/-- Witness for C4 (amended): a successful simulated tick adds the
measured two seconds; a failed tick leaves the budget unchanged. -/
theorem C4_budget_recording_amended_witness :
    (single_beat stateFresh envOk).1.budget_used =
      stateFresh.budget_used + envOk.exec_time
    ∧ (single_beat stateFresh envErr).1.budget_used = stateFresh.budget_used := by
  constructor
  · exact (C4_budget_recording_amended stateFresh envOk).1
      (by norm_num [stateFresh, cfgSim]) rfl rfl
  · exact (C4_budget_recording_amended stateFresh envErr).2 rfl

/-- C5 counterexample: with the budget ceiling already consumed, a
refused tick is followed by the `start` loop breaking (flag `false`), not
by a continuation to the next tick. -/
theorem C5_budget_stop_counterexample :
    stateSpent.config.max_monthly_seconds ≤ stateSpent.budget_used
    ∧ (start_step stateSpent none envOk).2 = false := by
  have h : stateSpent.config.max_monthly_seconds ≤ stateSpent.budget_used := by
    norm_num [stateSpent, stateFresh, cfgSim]
  refine ⟨h, ?_⟩
  have hsb : single_beat stateSpent envOk = (stateSpent, none) :=
    single_beat_refused stateSpent envOk h
  simp [start_step, hsb, h]

/-- C5 amended: a refused admission is terminal for the whole `start`
loop: the tick leaves the state unchanged and the loop's post-beat
budget check breaks out, consuming no further ticks. -/
theorem C5_budget_stop_amended (s : HeartbeatState) (mb : Option Nat) (env : TickEnv)
    (rest : List TickEnv) (h : s.config.max_monthly_seconds ≤ s.budget_used) :
    start_step s mb env = (s, false) ∧ run_sched s mb (env :: rest) = s := by
  have hsb : single_beat s env = (s, none) := single_beat_refused s env h
  have hstep : start_step s mb env = (s, false) := by
    unfold start_step
    rw [hsb]
    cases mb with
    | none => simp [h]
    | some m =>
      by_cases hm : m = 0
      · simp [h, hm]
      · by_cases hm2 : m ≤ s.beat_count
        · simp [hm, hm2]
        · simp [h, hm, hm2]
  refine ⟨hstep, ?_⟩
  simp [run_sched, hstep]

/-- Witness for C5 (amended): the spent state stops the loop at once. -/
theorem C5_budget_stop_amended_witness :
    start_step stateSpent none envOk = (stateSpent, false)
    ∧ run_sched stateSpent none [envOk] = stateSpent :=
  C5_budget_stop_amended stateSpent none envOk []
    (by norm_num [stateSpent, stateFresh, cfgSim])

/-! Concrete rotation scenario for C7. -/

def cfgRot : HeartbeatConfig :=
  { cfgSim with use_simulator := false,
                backend_rotation := ["ibm_torino", "ibm_fez"] }

def rotState0 : HeartbeatState where
  config := cfgRot
  beat_count := 0
  budget_used := 0
  running := false
  runtime_initialized := false
  backend := none
  rotation_index := 0
  rotation_file := 0

def rotState1 : HeartbeatState := (single_beat rotState0 envOk).1

def rotState2 : HeartbeatState := (single_beat rotState1 envOk).1

/-- The state `_get_runtime` produces from `rotState0`: runtime
initialized, first rotation entry cached, index advanced and persisted. -/
def rotStateA : HeartbeatState where
  config := cfgRot
  beat_count := 0
  budget_used := 0
  running := false
  runtime_initialized := true
  backend := some "ibm_torino"
  rotation_index := 1
  rotation_file := 1

theorem get_runtime_rotState0 : get_runtime rotState0 envOk = rotStateA := rfl

theorem single_beat_nonbudget (s : HeartbeatState) (env : TickEnv)
    (hA : ¬ s.config.max_monthly_seconds ≤ s.budget_used)
    (hB : s.config.dry_run = false) :
    (single_beat s env).1.backend = (get_runtime s env).backend
    ∧ (single_beat s env).1.rotation_index = (get_runtime s env).rotation_index
    ∧ (single_beat s env).1.rotation_file = (get_runtime s env).rotation_file
    ∧ (single_beat s env).1.runtime_initialized = (get_runtime s env).runtime_initialized
    ∧ (single_beat s env).1.config = (get_runtime s env).config := by
  by_cases hC : env.exec_ok = true <;>
    refine ⟨?_, ?_, ?_, ?_, ?_⟩ <;> simp [single_beat, hA, hB, hC]

theorem rotState0_admits : ¬ rotState0.config.max_monthly_seconds ≤ rotState0.budget_used := by
  norm_num [rotState0, cfgRot, cfgSim]

theorem rotState1_fields :
    rotState1.backend = some "ibm_torino"
    ∧ rotState1.rotation_index = 1
    ∧ rotState1.rotation_file = 1
    ∧ rotState1.runtime_initialized = true
    ∧ rotState1.config = cfgRot := by
  have h := single_beat_nonbudget rotState0 envOk rotState0_admits rfl
  rw [get_runtime_rotState0] at h
  exact h

theorem rotState1_admits : ¬ rotState1.config.max_monthly_seconds ≤ rotState1.budget_used := by
  have hb := (single_beat_adds rotState0 envOk (by norm_num [rotState0, cfgRot, cfgSim])
    rfl rfl).1
  have hc := rotState1_fields.2.2.2.2
  show ¬ rotState1.config.max_monthly_seconds ≤ (single_beat rotState0 envOk).1.budget_used
  rw [hb, hc]
  norm_num [rotState0, cfgRot, cfgSim, envOk]

theorem get_runtime_rotState1 : get_runtime rotState1 envOk = rotState1 := by
  simp [get_runtime, rotState1_fields.2.2.2.1]

theorem rotState2_fields :
    rotState2.backend = rotState1.backend ∧ rotState2.rotation_index = rotState1.rotation_index := by
  have hdry : rotState1.config.dry_run = false := by
    rw [rotState1_fields.2.2.2.2]
    rfl
  have h := single_beat_nonbudget rotState1 envOk rotState1_admits hdry
  rw [get_runtime_rotState1] at h
  exact ⟨h.1, h.2.1⟩

/-- C7 counterexample: with rotation `[ibm_torino, ibm_fez]` the first
tick selects `ibm_torino` (index advancing to 1), but the second
consecutive tick reuses the cached backend and leaves the index alone —
consecutive ticks do not select consecutive rotation entries. -/
theorem C7_rotation_counterexample :
    rotState1.backend = some "ibm_torino"
    ∧ rotState1.rotation_index = 1
    ∧ rotState2.backend = some "ibm_torino"
    ∧ rotState2.backend ≠ some "ibm_fez"
    ∧ rotState2.rotation_index = 1 := by
  have h2b : rotState2.backend = some "ibm_torino" := by
    rw [rotState2_fields.1, rotState1_fields.1]
  refine ⟨rotState1_fields.1, rotState1_fields.2.1, h2b, ?_, ?_⟩
  · rw [h2b]; simp
  · rw [rotState2_fields.2, rotState1_fields.2.1]

/-- C7 amended: `_get_next_backend_name` itself resolves
`backends[index % len]`, increments the index and persists it; but the
scheduler invokes it only while initializing the runtime, so any tick
starting with an initialized runtime reuses the cached backend and
leaves the rotation index (memory and disk) unchanged. -/
theorem C7_rotation_amended (s : HeartbeatState) (env : TickEnv) :
    (s.config.backend_rotation ≠ [] →
      (get_next_backend_name s).2 =
        some (s.config.backend_rotation.getD
          (s.rotation_index % s.config.backend_rotation.length) "")
      ∧ (get_next_backend_name s).1.rotation_index = s.rotation_index + 1
      ∧ (get_next_backend_name s).1.rotation_file = s.rotation_index + 1)
    ∧ (s.runtime_initialized = true →
      (single_beat s env).1.backend = s.backend
      ∧ (single_beat s env).1.rotation_index = s.rotation_index
      ∧ (single_beat s env).1.rotation_file = s.rotation_file) := by
  constructor
  · intro h
    refine ⟨?_, ?_, ?_⟩ <;> simp [get_next_backend_name, h]
  · intro h
    have hgr : get_runtime s env = s := by simp [get_runtime, h]
    by_cases hA : s.config.max_monthly_seconds ≤ s.budget_used
    · simp [single_beat, hA]
    · by_cases hB : s.config.dry_run = true
      · simp [single_beat, hA, hB]
      · by_cases hC : env.exec_ok = true
        · simp [single_beat, hA, hB, hC, hgr]
        · simp [single_beat, hA, hB, hC, hgr]

/-- Witness for C7 (amended): the rotation call on the fresh state
yields the first entry and persists index 1; the initialized state's
next beat changes neither backend nor rotation index. -/
theorem C7_rotation_amended_witness :
    (get_next_backend_name rotState0).2 = some "ibm_torino"
    ∧ (get_next_backend_name rotState0).1.rotation_index = 1
    ∧ (single_beat rotState1 envOk).1.backend = rotState1.backend
    ∧ (single_beat rotState1 envOk).1.rotation_index = rotState1.rotation_index := by
  have hinit : rotState1.runtime_initialized = true := rotState1_fields.2.2.2.1
  refine ⟨((C7_rotation_amended rotState0 envOk).1 (by simp [rotState0, cfgRot])).1,
          ((C7_rotation_amended rotState0 envOk).1 (by simp [rotState0, cfgRot])).2.1,
          ((C7_rotation_amended rotState1 envOk).2 hinit).1,
          ((C7_rotation_amended rotState1 envOk).2 hinit).2.1⟩

/-! Tracker ledger material. -/

def jobFailedW : JobRecord where
  job_id := "jf"
  backend_name := "ibm_fez"
  submitted_at := "2025-01-01T00:00:00+00:00"
  status := "FAILED"
  circuit_name := "hb"
  num_qubits := 2
  shots := 10
  experiment_type := "heartbeat"
  experiment_id := "e1"
  completed_at := none
  execution_time := none
  result_file := none

def trackerW : Tracker where
  tracker_path := "quantum_jobs/pending_jobs.json"
  jobs := [("jf", jobFailedW)]

/-- C6 counterexample: a record whose status is `FAILED` is returned by
`get_pending` — the tracker's terminal statuses are `DONE`, `CANCELLED`
and `ERROR`, not `FAILED`. -/
theorem C6_pending_counterexample :
    jobFailedW.status = "FAILED" ∧ trackerW.get_pending = [jobFailedW] :=
  ⟨rfl, rfl⟩

/-- C6 amended: `get_pending` returns exactly the stored records whose
status is none of `DONE`, `CANCELLED`, `ERROR`; in particular a
`FAILED` record is still reported as pending. -/
theorem C6_pending_amended (t : Tracker) (j : JobRecord) :
    j ∈ t.get_pending ↔
      j ∈ t.jobs.map (fun kv => kv.2)
      ∧ j.status ≠ "DONE" ∧ j.status ≠ "CANCELLED" ∧ j.status ≠ "ERROR" := by
  simp [Tracker.get_pending, List.mem_filter, and_assoc]

def trackerEmpty : Tracker where
  tracker_path := "quantum_jobs/pending_jobs.json"
  jobs := []

def addJobW : Tracker × List FsAction × JobRecord :=
  trackerEmpty.add_job "j1" "ibm_fez" "hb" 2 10 "heartbeat" "e1" "t0"

/-- C8 counterexample: a mutation persists the ledger through a single
direct write of the ledger file — there is no temporary file and no
rename step. -/
theorem C8_direct_write_counterexample :
    addJobW.2.1 =
      [FsAction.write "quantum_jobs/pending_jobs.json" "t0" [("j1", addJobW.2.2)]]
    ∧ addJobW.2.1.any FsAction.isRename = false :=
  ⟨rfl, rfl⟩

/-- C8 amended: every mutation that persists (add always; status update,
completion and removal whenever the id is tracked) writes the whole job
map to the ledger path with one direct in-place write and performs no
rename — the write is not atomic via temp file + rename. -/
theorem C8_persistence_amended (t : Tracker) (jid bn cn : String) (nq sh : Nat)
    (et eid now st rf : String) (ex : Seconds) :
    ((t.add_job jid bn cn nq sh et eid now).2.1 =
        [FsAction.write t.tracker_path now (t.add_job jid bn cn nq sh et eid now).1.jobs]
      ∧ (t.add_job jid bn cn nq sh et eid now).2.1.any FsAction.isRename = false)
    ∧ ((dget t.jobs jid).isSome = true →
        (t.update_status jid st now).2 =
          [FsAction.write t.tracker_path now (t.update_status jid st now).1.jobs]
        ∧ (t.update_status jid st now).2.any FsAction.isRename = false)
    ∧ ((dget t.jobs jid).isSome = true →
        (t.mark_completed jid ex rf now).2 =
          [FsAction.write t.tracker_path now (t.mark_completed jid ex rf now).1.jobs]
        ∧ (t.mark_completed jid ex rf now).2.any FsAction.isRename = false)
    ∧ ((dget t.jobs jid).isSome = true →
        (t.remove_job jid now).2 =
          [FsAction.write t.tracker_path now (t.remove_job jid now).1.jobs]
        ∧ (t.remove_job jid now).2.any FsAction.isRename = false) := by
  refine ⟨⟨rfl, rfl⟩, ?_, ?_, ?_⟩ <;> intro h <;>
    obtain ⟨r, hr⟩ := Option.isSome_iff_exists.mp h <;>
    constructor <;>
    simp [Tracker.update_status, Tracker.mark_completed, Tracker.remove_job, hr,
      tracker_save, FsAction.isRename]

/-- Witness for C8 (amended): updating and removing a tracked id each
persist through one direct ledger write with no rename. -/
theorem C8_persistence_amended_witness :
    (trackerW.update_status "jf" "RUNNING" "t1").2 =
      [FsAction.write trackerW.tracker_path "t1"
        (trackerW.update_status "jf" "RUNNING" "t1").1.jobs]
    ∧ (trackerW.remove_job "jf" "t1").2.any FsAction.isRename = false :=
  ⟨((C8_persistence_amended trackerW "jf" "b" "c" 0 0 "et" "e" "t1" "RUNNING" "rf" 0).2.1
      rfl).1,
   ((C8_persistence_amended trackerW "jf" "b" "c" 0 0 "et" "e" "t1" "RUNNING" "rf" 0).2.2.2
      rfl).2⟩

/-- C10: for a job id that is not tracked, `update_status`,
`mark_completed` and `remove_job` all return normally with the job map
unchanged and perform no ledger write. -/
theorem C10_missing_id_noop (t : Tracker) (jid st now rf : String) (ex : Seconds)
    (h : dget t.jobs jid = none) :
    t.update_status jid st now = (t, [])
    ∧ t.mark_completed jid ex rf now = (t, [])
    ∧ t.remove_job jid now = (t, []) := by
  refine ⟨?_, ?_, ?_⟩ <;>
    simp [Tracker.update_status, Tracker.mark_completed, Tracker.remove_job, h]

/-- Witness for C10: an unknown id leaves the tracker untouched. -/
theorem C10_missing_id_noop_witness :
    trackerW.update_status "nope" "DONE" "t1" = (trackerW, [])
    ∧ trackerW.mark_completed "nope" 1 "r.json" "t1" = (trackerW, [])
    ∧ trackerW.remove_job "nope" "t1" = (trackerW, []) :=
  C10_missing_id_noop trackerW "nope" "DONE" "t1" "r.json" 1 rfl

/-! Job-manager helper lemmas. -/

theorem dget_dict_set {α : Type} (l : List (String × α)) (k : String) (v : α) :
    dget (dict_set l k v) k = some v := by
  induction l with
  | nil => simp [dict_set, dget]
  | cons hd tl ih =>
    obtain ⟨k0, v0⟩ := hd
    by_cases h : k0 = k
    · simp [dict_set, h, dget]
    · simp [dict_set, h, dget, ih]

theorem submit_single_err (env : SubmitEnv) (t : Tracker) (c : Circuit) (b : String)
    (shots : Nat) (et eid now e : String) (h : env.submit b = .error e) :
    submit_single env t c b shots et eid now =
      (t, [],
       { job_id := "", backend_name := b, status := "FAILED", submitted := false,
         error := some e }) := by
  simp [submit_single, h]

theorem submit_single_ok (env : SubmitEnv) (t : Tracker) (c : Circuit) (b : String)
    (shots : Nat) (et eid now jid : String) (h : env.submit b = .ok jid) :
    (submit_single env t c b shots et eid now).2.2 =
      { job_id := jid, backend_name := b, status := "QUEUED", submitted := true,
        error := none }
    ∧ (dget (submit_single env t c b shots et eid now).1.jobs jid).map
        (fun r => r.backend_name) = some b
    ∧ (submit_single env t c b shots et eid now).2.1 ≠ [] := by
  refine ⟨?_, ?_, ?_⟩ <;>
    simp [submit_single, h, Tracker.add_job, tracker_save, dget_dict_set]

theorem submit_single_backend (env : SubmitEnv) (t : Tracker) (c : Circuit) (b : String)
    (shots : Nat) (et eid now : String) :
    (submit_single env t c b shots et eid now).2.2.backend_name = b := by
  cases h : env.submit b <;> simp [submit_single, h]

theorem submit_each_spec (env : SubmitEnv) (c : Circuit) (shots : Nat)
    (et eid now : String) (bs : List String) :
    ∀ t : Tracker,
    ((submit_each env c shots et eid now t bs).2.2.map (fun r => r.backend_name) = bs)
    ∧ (∀ b e, b ∈ bs → env.submit b = .error e →
        ({ job_id := "", backend_name := b, status := "FAILED", submitted := false,
           error := some e } : SubmissionResult) ∈
          (submit_each env c shots et eid now t bs).2.2)
    ∧ (∀ b jid, b ∈ bs → env.submit b = .ok jid →
        ({ job_id := jid, backend_name := b, status := "QUEUED", submitted := true,
           error := none } : SubmissionResult) ∈
          (submit_each env c shots et eid now t bs).2.2) := by
  induction bs with
  | nil =>
    intro t
    refine ⟨rfl, ?_, ?_⟩ <;> intro b x hb _ <;> simp at hb
  | cons hd tl ih =>
    intro t
    refine ⟨?_, ?_, ?_⟩
    · simp only [submit_each, List.map_cons]
      rw [submit_single_backend,
        (ih (submit_single env t c hd shots et eid now).1).1]
    · intro b e hb herr
      simp only [submit_each, List.mem_cons]
      rcases List.mem_cons.mp hb with rfl | hb'
      · left
        rw [(submit_single_err env t c b shots et eid now e herr)]
      · right
        exact (ih (submit_single env t c hd shots et eid now).1).2.1 b e hb' herr
    · intro b jid hb hok
      simp only [submit_each, List.mem_cons]
      rcases List.mem_cons.mp hb with rfl | hb'
      · left
        exact (submit_single_ok env t c b shots et eid now jid hok).1.symm
      · right
        exact (ih (submit_single env t c hd shots et eid now).1).2.2 b jid hb' hok

/-- C9 amended: `submit_parallel` over N backends always returns exactly
N `SubmissionResult`s, one per backend in order; a failing submission is
caught and reported as `submitted = false` with the error text; and a
`JobRecord` is registered (and persisted) immediately for each backend
whose submission succeeded — but not for a failing backend. -/
theorem C9_submit_parallel_amended (env : SubmitEnv) (t : Tracker) (c : Circuit)
    (bs : List String) (shots : Nat) (et eid now : String) :
    ((submit_parallel env t c (some bs) shots et eid now).2.2.map
        (fun r => r.backend_name) = bs)
    ∧ ((submit_parallel env t c (some bs) shots et eid now).2.2.length = bs.length)
    ∧ (∀ b e, b ∈ bs → env.submit b = .error e →
        ({ job_id := "", backend_name := b, status := "FAILED", submitted := false,
           error := some e } : SubmissionResult) ∈
          (submit_parallel env t c (some bs) shots et eid now).2.2)
    ∧ (∀ b jid, b ∈ bs → env.submit b = .ok jid →
        ({ job_id := jid, backend_name := b, status := "QUEUED", submitted := true,
           error := none } : SubmissionResult) ∈
          (submit_parallel env t c (some bs) shots et eid now).2.2)
    ∧ (∀ (t' : Tracker) (b jid : String), env.submit b = .ok jid →
        (dget (submit_single env t' c b shots et eid now).1.jobs jid).map
            (fun r => r.backend_name) = some b
        ∧ (submit_single env t' c b shots et eid now).2.1 ≠ [])
    ∧ (∀ (t' : Tracker) (b e : String), env.submit b = .error e →
        submit_single env t' c b shots et eid now =
          (t', [],
           { job_id := "", backend_name := b, status := "FAILED", submitted := false,
             error := some e })) := by
  have hsp : submit_parallel env t c (some bs) shots et eid now =
      submit_each env c shots et (if eid = "" then et ++ "_" ++ now else eid) now t bs :=
    rfl
  have hspec := submit_each_spec env c shots et
    (if eid = "" then et ++ "_" ++ now else eid) now bs t
  refine ⟨?_, ?_, ?_, ?_, ?_, ?_⟩
  · rw [hsp]; exact hspec.1
  · rw [hsp]
    have := congrArg List.length hspec.1
    simpa using this
  · rw [hsp]; exact hspec.2.1
  · rw [hsp]; exact hspec.2.2
  · intro t' b jid hok
    exact ⟨(submit_single_ok env t' c b shots et eid now jid hok).2.1,
      (submit_single_ok env t' c b shots et eid now jid hok).2.2⟩
  · intro t' b e herr
    exact submit_single_err env t' c b shots et eid now e herr

/-! Concrete parallel-submission material: three backends of which the
second raises on submission. -/

def subEnvW : SubmitEnv where
  submit := fun b => if b = "B2" then .error "boom" else .ok ("J" ++ b)

def circW2 : Circuit where
  name := "bell"
  num_qubits := 2
  depth := 2
  size := 3

def parOutW : Tracker × List FsAction × List SubmissionResult :=
  submit_parallel subEnvW trackerEmpty circW2 (some ["B1", "B2", "B3"]) 1024
    "parallel" "exp1" "t0"

/-- C9 counterexample: with backends `[B1, B2, B3]` and `B2` raising,
three results come back (B2's with `submitted = false`), but no
`JobRecord` is registered for `B2` — registration is not per backend. -/
theorem C9_submit_parallel_counterexample :
    parOutW.2.2.length = 3
    ∧ (parOutW.2.2.map fun r => r.submitted) = [true, false, true]
    ∧ ((parOutW.1.jobs.map fun kv => kv.2.backend_name).contains "B2") = false :=
  ⟨rfl, rfl, rfl⟩

/-- Witness for C9 (amended): the three results carry the three backends
in order and the failing backend's result reports the caught error. -/
theorem C9_submit_parallel_amended_witness :
    (parOutW.2.2.map fun r => r.backend_name) = ["B1", "B2", "B3"]
    ∧ ({ job_id := "", backend_name := "B2", status := "FAILED", submitted := false,
         error := some "boom" } : SubmissionResult) ∈ parOutW.2.2 := by
  have h := C9_submit_parallel_amended subEnvW trackerEmpty circW2 ["B1", "B2", "B3"]
    1024 "parallel" "exp1" "t0"
  exact ⟨h.1, h.2.2.1 "B2" "boom" (by simp) rfl⟩
